import Mathlib

/-!
Verification of `src/alacritty_terminal/src/text_run.rs`: the text-run
grouping module of a terminal renderer.  We shallowly embed the module's
data model (`RunStart`, `TextRun`, `TextRunContent`), its boundary
predicate (`belongs_to_text_run`), its color resolver (`color_to_rgb`),
the cursor-run constructor (`from_cursor_key`), the identity contract
(`Hash`/`PartialEq` impls), and the accessors (`start_point`,
`end_point`, `start_cell`, `dummy_cell_at`).

Types the module imports from sibling modules that are not part of the
supplied source (`Rgb`, `Color`, `NamedColor`, `Flags`, `Cell`,
`Config`, `color::List`, `CursorKey`, `RenderableCell`) are modelled
from the specification, as are the three palette-lookup helpers
(`compute_fg_rgb`, `compute_bg_rgb`, `compute_bg_alpha`), which we keep
abstract by passing them as explicit function parameters wherever the
embedded code calls them.
-/

namespace TextRunModule

/-- Modelled from the spec: resolved render color (term::color::Rgb),
a triple of 8-bit channels. -/
structure Rgb where
  r : Nat
  g : Nat
  b : Nat
deriving DecidableEq, Repr

/-- Modelled from the spec: an f32 value represented by its IEEE-754 bit
pattern.  The identity contract compares `bg_alpha` via `f32::to_bits`,
so the bit pattern is the only observation of an f32 the module makes
besides carrying it through. -/
structure F32 where
  bits : Nat
deriving DecidableEq, Repr

/-- The `f32::to_bits` observation used by the `Hash`/`PartialEq` impls. -/
def F32.to_bits (x : F32) : Nat := x.bits

/-- The literal `1.0f32` (bit pattern 0x3F800000). -/
def F32.one : F32 := ⟨0x3F800000⟩

/-- The literal `0.0f32` (bit pattern 0). -/
def F32.zero : F32 := ⟨0⟩

/-- Modelled from the spec: named entries of the theme palette
(ansi::NamedColor).  Only `Foreground` and `Background` are referenced
by the module. -/
inductive NamedColor where
  | Foreground
  | Background
  | Cursor
deriving DecidableEq, Repr

/-- Modelled from the spec: a raw color reference (ansi::Color): a named
theme entry, a literal RGB spec, or an indexed palette entry. -/
inductive Color where
  | Named (n : NamedColor)
  | Spec (rgb : Rgb)
  | Indexed (i : Nat)
deriving DecidableEq, Repr

/-- Modelled from the spec: the resolved theme palette (term::color::List),
a lookup from named entries and from indices to RGB values. -/
structure ColorList where
  named : NamedColor → Rgb
  indexed : Nat → Rgb

/-- Modelled from the spec: the cell attribute bitset
(term::cell::Flags), including at least INVERSE and HIDDEN. -/
structure Flags where
  bits : Nat
deriving DecidableEq, Repr

/-- The INVERSE attribute bit. -/
def Flags.INVERSE : Flags := ⟨1⟩

/-- The HIDDEN attribute bit. -/
def Flags.HIDDEN : Flags := ⟨2⟩

/-- Bitset membership test (`Flags::contains`). -/
def Flags.contains (f m : Flags) : Bool :=
  f.bits &&& m.bits == m.bits

/-- Modelled from the spec: the fixed small bound on zero-width combining
characters attached to one base cell (term::cell::MAX_ZEROWIDTH_CHARS). -/
def MAX_ZEROWIDTH_CHARS : Nat := 5

/-- Modelled from the spec: selection override colors from the user
configuration; each is optionally configured. -/
structure SelectionColors where
  background : Option Rgb
  text : Option Rgb
deriving DecidableEq, Repr

/-- Modelled from the spec: the color section of the configuration. -/
structure ConfigColors where
  selection : SelectionColors
deriving DecidableEq, Repr

/-- Modelled from the spec: the resolved user configuration, of which the
module reads only `config.colors.selection`. -/
structure Config where
  colors : ConfigColors
deriving DecidableEq, Repr

/-- Modelled from the spec: a grid cell (term::cell::Cell) — base
character, raw color references, attribute flags, zero-width slots. -/
structure Cell where
  c : Char
  fg : Color
  bg : Color
  flags : Flags
  zerowidth : List Char
deriving DecidableEq, Repr

/-- Modelled from the spec: grid::Indexed, a cell paired with its grid
position; field access on the cell goes through `inner`. -/
structure IndexedCell where
  line : Nat
  column : Nat
  inner : Cell
deriving DecidableEq, Repr

/-- Modelled from the spec: the cursor-shape key (term::CursorKey),
an opaque identifier for the cursor glyph (shape plus wide bit). -/
structure CursorKey where
  shape : Nat
  is_wide : Bool
deriving DecidableEq, Repr

/-- Modelled from the spec: the palette-lookup helpers the module calls
on RenderableCell; they live outside the supplied source, so they are
passed as abstract functions.  `compute_fg_rgb` resolves a raw
foreground reference against config and palette (flags feed the
bold/dim remapping), `compute_bg_rgb` resolves a raw background
reference, `compute_bg_alpha` derives the default background alpha from
the raw background reference. -/
structure Externals where
  compute_fg_rgb : Config → ColorList → Color → Flags → Rgb
  compute_bg_rgb : ColorList → Color → Rgb
  compute_bg_alpha : Color → F32

/-- The signature that opened a run (struct RunStart). -/
structure RunStart where
  line : Nat
  column : Nat
  fg : Color
  bg : Color
  selected : Bool
  flags : Flags
deriving DecidableEq, Repr

/-- RunStart::belongs_to_text_run — compare a cell against the open
run's signature. -/
def RunStart.belongs_to_text_run (s : RunStart) (cell : IndexedCell)
    (selected : Bool) : Bool :=
  decide (s.line = cell.line)
    && decide (s.fg = cell.inner.fg)
    && decide (s.bg = cell.inner.bg)
    && decide (s.flags = cell.inner.flags)
    && decide (s.selected = selected)

/-- enum TextRunContent: a cursor marker or a character run (base string
plus per-base zero-width slots). -/
inductive TextRunContent where
  | Cursor (key : CursorKey)
  | CharRun (s : List Char) (zw : List (List Char))
deriving DecidableEq, Repr

/-- struct Glyph — the shaped-glyph record (texture id, colored bit,
and f32 geometry/UV fields); carried opaquely inside the `data` cache.
`GLuint` is embedded as Nat and each `f32` as its bit pattern. -/
structure Glyph where
  tex_id : Nat
  colored : Bool
  top : F32
  left : F32
  width : F32
  height : F32
  uv_bot : F32
  uv_left : F32
  uv_width : F32
  uv_height : F32
deriving DecidableEq, Repr

/-- Modelled from the spec: term::RenderableCellContent — characters or
a cursor. -/
inductive RenderableCellContent where
  | Chars (chars : List Char)
  | Cursor (key : CursorKey)
deriving DecidableEq, Repr

/-- Modelled from the spec: term::RenderableCell — a positioned cell
with resolved colors, produced for the draw stage. -/
structure RenderableCell where
  line : Nat
  column : Nat
  inner : RenderableCellContent
  fg : Rgb
  bg : Rgb
  bg_alpha : F32
  flags : Flags
deriving DecidableEq, Repr

/-- index::Point — a (line, column) grid position. -/
structure Point where
  line : Nat
  col : Nat
deriving DecidableEq, Repr

/-- struct TextRun: the run entity. -/
structure TextRun where
  line : Nat
  span : Nat × Nat
  content : TextRunContent
  fg : Rgb
  bg : Rgb
  bg_alpha : F32
  flags : Flags
  data : Option (List (RenderableCell × Glyph))
deriving DecidableEq, Repr

/-- impl PartialEq for TextRun: width, content, alpha bits, flags. -/
def TextRun.beq (a b : TextRun) : Bool :=
  decide (a.span.2 - a.span.1 = b.span.2 - b.span.1)
    && decide (a.content = b.content)
    && decide (a.bg_alpha.to_bits = b.bg_alpha.to_bits)
    && decide (a.flags = b.flags)

/-- impl Hash for TextRun: the exact sequence of values fed to the
hasher, in order — width, content, alpha bits, flags.  Any hasher sees
only this tuple. -/
def TextRun.hashInput (r : TextRun) :
    Nat × TextRunContent × Nat × Flags :=
  (r.span.2 - r.span.1, r.content, r.bg_alpha.to_bits, r.flags)

/-- TextRun::color_to_rgb — the color resolver. -/
def TextRun.color_to_rgb (E : Externals) (config : Config)
    (colors : ColorList) (start : RunStart) : Rgb × Rgb × F32 :=
  let fg := E.compute_fg_rgb config colors start.fg start.flags
  let bg := E.compute_bg_rgb colors start.bg
  let bg_alpha := E.compute_bg_alpha start.bg
  let selection_background := config.colors.selection.background
  let step : Rgb × Rgb × F32 :=
    match start.selected, selection_background with
    | true, some col =>
      -- Override selection background with config colors.
      (fg, col, F32.one)
    | _, _ =>
      if Bool.xor start.selected (start.flags.contains Flags.INVERSE) then
        if decide (fg = bg) && !(start.flags.contains Flags.HIDDEN) then
          -- Reveal inversed text when fg/bg is the same.
          (colors.named NamedColor.Background,
           colors.named NamedColor.Foreground, F32.one)
        else
          -- Invert cell fg and bg colors.
          (bg, fg, F32.one)
      else
        (fg, bg, bg_alpha)
  let final_fg : Rgb :=
    match start.selected, config.colors.selection.text with
    | true, some col => col
    | _, _ => step.1
  (final_fg, step.2.1, step.2.2)

/-- TextRun::from_cursor_key — build the single-column cursor run. -/
def TextRun.from_cursor_key (E : Externals) (config : Config)
    (colors : ColorList) (start : RunStart) (cursor : CursorKey) :
    TextRun :=
  let res := TextRun.color_to_rgb E config colors start
  { line := start.line
    span := (start.column, start.column)
    content := TextRunContent.Cursor cursor
    fg := res.1
    bg := res.2.1
    bg_alpha := res.2.2
    flags := start.flags
    data := none }

/-- TextRun::dummy_cell_at — a blank RenderableCell carrying this run's
position and color information. -/
def TextRun.dummy_cell_at (r : TextRun) (col : Nat) : RenderableCell :=
  { line := r.line
    column := col
    inner := RenderableCellContent.Chars
      (List.replicate (MAX_ZEROWIDTH_CHARS + 1) ' ')
    fg := r.fg
    bg := r.bg
    bg_alpha := r.bg_alpha
    flags := r.flags }

/-- TextRun::start_cell — the dummy cell at the run's first column. -/
def TextRun.start_cell (r : TextRun) : RenderableCell :=
  r.dummy_cell_at r.span.1

/-- TextRun::start_point — first point covered by this run. -/
def TextRun.start_point (r : TextRun) : Point :=
  { line := r.line, col := r.span.1 }

/-- TextRun::end_point — end point covered by this run. -/
def TextRun.end_point (r : TextRun) : Point :=
  { line := r.line, col := r.span.2 }

/-! ## Spec-modelled instances of the external helpers

The palette-lookup helpers live in `term/mod.rs`, outside the supplied
source.  For concrete evaluation (witnesses and counterexamples) we
instantiate them from the specification's description. -/

/-- Modelled from the spec: `RenderableCell::compute_fg_rgb`,
`compute_bg_rgb` and `compute_bg_alpha` are missing from the supplied
source.  Per the spec, fg/bg lookup resolves a raw reference through the
palette (named entries and indexed entries; a literal spec passes
through; bold/dim remapping is treated as already encoded in the
supplied palette), and the default background alpha is fully opaque
unless the raw background reference denotes the default background, in
which case it is 0 so a backdrop can show through. -/
def specExternals : Externals where
  compute_fg_rgb := fun _ colors c _ =>
    match c with
    | Color.Named n => colors.named n
    | Color.Spec rgb => rgb
    | Color.Indexed i => colors.indexed i
  compute_bg_rgb := fun colors c =>
    match c with
    | Color.Named n => colors.named n
    | Color.Spec rgb => rgb
    | Color.Indexed i => colors.indexed i
  compute_bg_alpha := fun c =>
    match c with
    | Color.Named NamedColor.Background => F32.zero
    | _ => F32.one

/-- Modelled from the spec: the boundary predicate as §4.2 words it —
same line, candidate's RESOLVED foreground equal to the open run's
resolved foreground, candidate's RESOLVED background equal to the open
run's resolved background, equal flags, equal selection state.  This is
the spec-side definition to compare against the source's
`belongs_to_text_run`, which compares raw color references. -/
def belongs_spec (E : Externals) (config : Config) (colors : ColorList)
    (s : RunStart) (cell : IndexedCell) (selected : Bool) : Prop :=
  s.line = cell.line
    ∧ E.compute_fg_rgb config colors cell.inner.fg cell.inner.flags
        = E.compute_fg_rgb config colors s.fg s.flags
    ∧ E.compute_bg_rgb colors cell.inner.bg
        = E.compute_bg_rgb colors s.bg
    ∧ s.flags = cell.inner.flags
    ∧ s.selected = selected

/-! ## Concrete fixtures for witnesses and counterexamples -/

/-- A concrete theme palette: white foreground on black background. -/
def palette0 : ColorList where
  named := fun n =>
    match n with
    | NamedColor.Foreground => ⟨255, 255, 255⟩
    | NamedColor.Background => ⟨0, 0, 0⟩
    | NamedColor.Cursor => ⟨128, 128, 128⟩
  indexed := fun _ => ⟨17, 17, 17⟩

/-- A configuration with no selection overrides. -/
def cfg0 : Config := ⟨⟨⟨none, none⟩⟩⟩

/-- A configuration with both selection overrides set:
background ⟨10,20,30⟩ and text ⟨40,50,60⟩. -/
def cfgSel : Config := ⟨⟨⟨some ⟨10, 20, 30⟩, some ⟨40, 50, 60⟩⟩⟩⟩

/-- A configuration with only the selection-text override ⟨40,50,60⟩. -/
def cfgText : Config := ⟨⟨⟨none, some ⟨40, 50, 60⟩⟩⟩⟩

/-- An open-run signature whose foreground is the NAMED foreground. -/
def c1Start : RunStart :=
  { line := 0, column := 0, fg := Color.Named NamedColor.Foreground,
    bg := Color.Named NamedColor.Background, selected := false,
    flags := ⟨0⟩ }

/-- A candidate cell whose foreground is the literal SPEC of the same
RGB value the named foreground resolves to under `palette0`. -/
def c1Cell : IndexedCell :=
  { line := 0, column := 1,
    inner := { c := 'a', fg := Color.Spec ⟨255, 255, 255⟩,
               bg := Color.Named NamedColor.Background,
               flags := ⟨0⟩, zerowidth := [] } }

/-- A selected signature with empty flags (used with `cfgSel`). -/
def selStart : RunStart :=
  { line := 0, column := 3, fg := Color.Named NamedColor.Foreground,
    bg := Color.Named NamedColor.Background, selected := true,
    flags := ⟨0⟩ }

/-- A selected signature whose fg and bg resolve to the same RGB. -/
def c3Start : RunStart :=
  { line := 0, column := 0, fg := Color.Spec ⟨9, 9, 9⟩,
    bg := Color.Spec ⟨9, 9, 9⟩, selected := true, flags := ⟨0⟩ }

/-- An unselected, INVERSE-flagged signature whose fg and bg resolve to
the same RGB. -/
def c3WStart : RunStart :=
  { line := 0, column := 0, fg := Color.Spec ⟨9, 9, 9⟩,
    bg := Color.Spec ⟨9, 9, 9⟩, selected := false, flags := ⟨1⟩ }

/-- A selected signature with distinct fg and bg. -/
def c4Start : RunStart :=
  { line := 0, column := 0, fg := Color.Spec ⟨1, 2, 3⟩,
    bg := Color.Spec ⟨7, 8, 9⟩, selected := true, flags := ⟨0⟩ }

/-- An unselected, INVERSE-flagged signature with distinct fg and bg. -/
def c4WStart : RunStart :=
  { line := 0, column := 0, fg := Color.Spec ⟨1, 2, 3⟩,
    bg := Color.Spec ⟨7, 8, 9⟩, selected := false, flags := ⟨1⟩ }

/-- A plain signature: unselected, no INVERSE. -/
def plainStart : RunStart :=
  { line := 2, column := 5, fg := Color.Named NamedColor.Foreground,
    bg := Color.Named NamedColor.Background, selected := false,
    flags := ⟨0⟩ }

/-! ## Claims -/

/-- C1 (counterexample): the claim reads the boundary predicate as
comparing RESOLVED colors.  With `palette0`, the open signature's named
foreground and a candidate's literal `Spec ⟨255,255,255⟩` resolve to the
same RGB, so the spec-side predicate holds, yet `belongs_to_text_run`
returns false because it compares the raw `Color` references.  Hence
the claimed equivalence fails at this input. -/
theorem C1_counterexample :
    ¬ (RunStart.belongs_to_text_run c1Start c1Cell false = true
        ↔ belongs_spec specExternals cfg0 palette0 c1Start c1Cell false) := by
  intro h
  have hfalse : RunStart.belongs_to_text_run c1Start c1Cell false = true :=
    h.mpr ⟨rfl, rfl, rfl, rfl, rfl⟩
  exact absurd hfalse (by decide)

/-- C1 (amended): `belongs_to_text_run` returns true iff the candidate
is on the same line as the opening signature, the candidate's RAW
foreground color reference equals the open run's foreground reference,
the candidate's RAW background color reference equals the open run's
background reference, the flags are equal, and the selection states are
equal.  (The comparison is on raw color references, not resolved
colors.) -/
theorem C1_boundary_raw (s : RunStart) (cell : IndexedCell)
    (selected : Bool) :
    RunStart.belongs_to_text_run s cell selected = true ↔
      (s.line = cell.line ∧ s.fg = cell.inner.fg ∧ s.bg = cell.inner.bg
        ∧ s.flags = cell.inner.flags ∧ s.selected = selected) := by
  simp [RunStart.belongs_to_text_run, and_assoc]

/-- C2: if the cell is selected and the configuration has a
selection-background override, `color_to_rgb` returns that override as
bg with bg_alpha 1.0; the inversion/reveal step is skipped regardless
of INVERSE, so the fg is the base lookup (or the text override when one
is configured). -/
theorem C2_selection_bg_override (E : Externals) (config : Config)
    (colors : ColorList) (start : RunStart) (col : Rgb)
    (hsel : start.selected = true)
    (hbg : config.colors.selection.background = some col) :
    TextRun.color_to_rgb E config colors start =
      ((match config.colors.selection.text with
        | some t => t
        | none => E.compute_fg_rgb config colors start.fg start.flags),
       col, F32.one) := by
  cases ht : config.colors.selection.text <;>
    simp [TextRun.color_to_rgb, hsel, hbg, ht]

/-- Witness for C2 at a concrete selected signature with both overrides
configured. -/
theorem C2_selection_bg_override_witness :
    TextRun.color_to_rgb specExternals cfgSel palette0 selStart =
      (⟨40, 50, 60⟩, ⟨10, 20, 30⟩, F32.one) :=
  C2_selection_bg_override specExternals cfgSel palette0 selStart
    ⟨10, 20, 30⟩ rfl rfl

/-- C3 (counterexample): `c3Start` is selected with INVERSE unset (so
selected XOR INVERSE holds), no selection-background override applies,
its fg and bg resolve to the same RGB, and HIDDEN is unset — every
hypothesis of the claim holds — yet the returned fg is the configured
selection-text override ⟨40,50,60⟩, not the theme background, because
the text override is applied after the reveal step.  The claim as
stated is therefore false at this input. -/
theorem C3_counterexample :
    Bool.xor c3Start.selected (c3Start.flags.contains Flags.INVERSE) = true
    ∧ ¬ (c3Start.selected = true
          ∧ (cfgText.colors.selection.background).isSome = true)
    ∧ specExternals.compute_fg_rgb cfgText palette0 c3Start.fg c3Start.flags
        = specExternals.compute_bg_rgb palette0 c3Start.bg
    ∧ c3Start.flags.contains Flags.HIDDEN = false
    ∧ (TextRun.color_to_rgb specExternals cfgText palette0 c3Start).1
        ≠ palette0.named NamedColor.Background :=
  ⟨rfl, by decide, rfl, rfl, by decide⟩

/-- C3 (amended): the reveal conclusion additionally requires that no
selection-text override applies (not both selected and a text override
configured).  Then, when selected XOR INVERSE holds, no
selection-background override applies, resolved fg equals resolved bg,
and HIDDEN is unset, `color_to_rgb` returns the theme background as fg,
the theme foreground as bg, and bg_alpha 1.0. -/
theorem C3_reveal (E : Externals) (config : Config) (colors : ColorList)
    (start : RunStart)
    (hx : Bool.xor start.selected (start.flags.contains Flags.INVERSE) = true)
    (hnb : ¬ (start.selected = true
              ∧ (config.colors.selection.background).isSome = true))
    (hnt : ¬ (start.selected = true
              ∧ (config.colors.selection.text).isSome = true))
    (heq : E.compute_fg_rgb config colors start.fg start.flags
            = E.compute_bg_rgb colors start.bg)
    (hh : start.flags.contains Flags.HIDDEN = false) :
    TextRun.color_to_rgb E config colors start =
      (colors.named NamedColor.Background,
       colors.named NamedColor.Foreground, F32.one) := by
  cases hs : start.selected <;>
    cases hb : config.colors.selection.background <;>
      cases ht : config.colors.selection.text <;>
        simp_all [TextRun.color_to_rgb]

/-- Witness for C3 (amended): an unselected INVERSE cell whose fg and
bg are both the literal ⟨9,9,9⟩ is revealed as theme background on
theme foreground. -/
theorem C3_reveal_witness :
    TextRun.color_to_rgb specExternals cfg0 palette0 c3WStart =
      (⟨0, 0, 0⟩, ⟨255, 255, 255⟩, F32.one) :=
  C3_reveal specExternals cfg0 palette0 c3WStart rfl (by decide)
    (by decide) rfl rfl

/-- C4 (counterexample): `c4Start` is selected with INVERSE unset, no
selection-background override applies, and its resolved fg ⟨1,2,3⟩
differs from its resolved bg ⟨7,8,9⟩ — every hypothesis of the claim
holds — yet the returned fg is the configured selection-text override
⟨40,50,60⟩, not the pre-swap bg ⟨7,8,9⟩, because the text override is
applied after the swap.  The claim as stated is therefore false at this
input. -/
theorem C4_counterexample :
    Bool.xor c4Start.selected (c4Start.flags.contains Flags.INVERSE) = true
    ∧ ¬ (c4Start.selected = true
          ∧ (cfgText.colors.selection.background).isSome = true)
    ∧ (specExternals.compute_fg_rgb cfgText palette0 c4Start.fg c4Start.flags
        ≠ specExternals.compute_bg_rgb palette0 c4Start.bg
       ∨ c4Start.flags.contains Flags.HIDDEN = true)
    ∧ (TextRun.color_to_rgb specExternals cfgText palette0 c4Start).1
        ≠ specExternals.compute_bg_rgb palette0 c4Start.bg :=
  ⟨rfl, by decide, Or.inl (by decide), by decide⟩

/-- C4 (amended): the swap conclusion additionally requires that no
selection-text override applies.  Then, when selected XOR INVERSE
holds, no selection-background override applies, and either resolved fg
differs from resolved bg or HIDDEN is set, `color_to_rgb` returns the
pre-swap bg as fg, the pre-swap fg as bg, and bg_alpha 1.0. -/
theorem C4_swap (E : Externals) (config : Config) (colors : ColorList)
    (start : RunStart)
    (hx : Bool.xor start.selected (start.flags.contains Flags.INVERSE) = true)
    (hnb : ¬ (start.selected = true
              ∧ (config.colors.selection.background).isSome = true))
    (hnt : ¬ (start.selected = true
              ∧ (config.colors.selection.text).isSome = true))
    (hne : E.compute_fg_rgb config colors start.fg start.flags
            ≠ E.compute_bg_rgb colors start.bg
          ∨ start.flags.contains Flags.HIDDEN = true) :
    TextRun.color_to_rgb E config colors start =
      (E.compute_bg_rgb colors start.bg,
       E.compute_fg_rgb config colors start.fg start.flags, F32.one) := by
  cases hs : start.selected <;>
    cases hb : config.colors.selection.background <;>
      cases ht : config.colors.selection.text <;>
        rcases hne with hne | hne <;>
          simp_all [TextRun.color_to_rgb]

/-- Witness for C4 (amended): an unselected INVERSE cell with fg
⟨1,2,3⟩ and bg ⟨7,8,9⟩ gets them swapped with bg_alpha 1.0. -/
theorem C4_swap_witness :
    TextRun.color_to_rgb specExternals cfg0 palette0 c4WStart =
      (⟨7, 8, 9⟩, ⟨1, 2, 3⟩, F32.one) :=
  C4_swap specExternals cfg0 palette0 c4WStart rfl (by decide) (by decide)
    (Or.inl (by decide))

/-- C5: whenever the cell is selected and a selection-text override is
configured, the fg returned by `color_to_rgb` is that override,
whatever the earlier steps produced. -/
theorem C5_selection_text_override (E : Externals) (config : Config)
    (colors : ColorList) (start : RunStart) (col : Rgb)
    (hsel : start.selected = true)
    (ht : config.colors.selection.text = some col) :
    (TextRun.color_to_rgb E config colors start).1 = col := by
  simp [TextRun.color_to_rgb, hsel, ht]

/-- Witness for C5: with both overrides configured, the selected
signature's fg is the text override ⟨40,50,60⟩. -/
theorem C5_selection_text_override_witness :
    (TextRun.color_to_rgb specExternals cfgSel palette0 selStart).1
      = ⟨40, 50, 60⟩ :=
  C5_selection_text_override specExternals cfgSel palette0 selStart
    ⟨40, 50, 60⟩ rfl rfl

/-- C6: for an unselected cell without INVERSE, `color_to_rgb` returns
exactly the raw palette lookups and the default background alpha — no
swap, reveal, or override is applied. -/
theorem C6_plain (E : Externals) (config : Config) (colors : ColorList)
    (start : RunStart)
    (hsel : start.selected = false)
    (hinv : start.flags.contains Flags.INVERSE = false) :
    TextRun.color_to_rgb E config colors start =
      (E.compute_fg_rgb config colors start.fg start.flags,
       E.compute_bg_rgb colors start.bg,
       E.compute_bg_alpha start.bg) := by
  cases hb : config.colors.selection.background <;>
    cases ht : config.colors.selection.text <;>
      simp_all [TextRun.color_to_rgb]

/-- Witness for C6: a plain white-on-black signature resolves to the
raw palette lookups with the default-background alpha 0. -/
theorem C6_plain_witness :
    TextRun.color_to_rgb specExternals cfg0 palette0 plainStart =
      (⟨255, 255, 255⟩, ⟨0, 0, 0⟩, F32.zero) :=
  C6_plain specExternals cfg0 palette0 plainStart rfl rfl

/-- C7: two TextRuns compare equal iff their widths, contents,
bg_alpha bit patterns (exact, via to_bits) and flags all match; that is
also exactly when the value sequences they feed to a hasher coincide
(so any hasher hashes them identically); fg, bg, line, and the absolute
position of the span have no effect on equality; and changing the
content, the span width, the flags, or the bg_alpha bits of a run to a
different value breaks equality with the original. -/
theorem C7_identity (r1 r2 : TextRun) :
    (TextRun.beq r1 r2 = true ↔
      (r1.span.2 - r1.span.1 = r2.span.2 - r2.span.1
        ∧ r1.content = r2.content
        ∧ r1.bg_alpha.to_bits = r2.bg_alpha.to_bits
        ∧ r1.flags = r2.flags))
    ∧ (TextRun.beq r1 r2 = true ↔
        TextRun.hashInput r1 = TextRun.hashInput r2)
    ∧ (∀ (fgN bgN : Rgb) (lineN colN : Nat),
        TextRun.beq
          { r1 with fg := fgN, bg := bgN, line := lineN,
                    span := (colN, colN + (r1.span.2 - r1.span.1)) } r2
          = TextRun.beq r1 r2)
    ∧ (∀ c, TextRun.beq { r1 with content := c } r1 = true
        ↔ c = r1.content)
    ∧ (∀ sp : Nat × Nat, TextRun.beq { r1 with span := sp } r1 = true
        ↔ sp.2 - sp.1 = r1.span.2 - r1.span.1)
    ∧ (∀ f, TextRun.beq { r1 with flags := f } r1 = true ↔ f = r1.flags)
    ∧ (∀ a : F32, TextRun.beq { r1 with bg_alpha := a } r1 = true
        ↔ a.to_bits = r1.bg_alpha.to_bits) := by
  refine ⟨?_, ?_, ?_, ?_, ?_, ?_, ?_⟩
  · simp [TextRun.beq, and_assoc]
  · simp [TextRun.beq, TextRun.hashInput, Prod.ext_iff, and_assoc]
  · intro fgN bgN lineN colN
    simp [TextRun.beq]
  · intro c
    simp [TextRun.beq, eq_comm]
  · intro sp
    simp [TextRun.beq]
  · intro f
    simp [TextRun.beq, eq_comm]
  · intro a
    simp [TextRun.beq, eq_comm]

/-- C8: `from_cursor_key` builds a run on the start's line occupying
the single column `start.column` (span start = span end = the start
column, hence exactly one column), with content forced to
`Cursor(key)`, the start's flags, no cached data, and fg/bg/bg_alpha
taken from `color_to_rgb` applied to the start signature. -/
theorem C8_cursor_run (E : Externals) (config : Config)
    (colors : ColorList) (start : RunStart) (cursor : CursorKey) :
    TextRun.from_cursor_key E config colors start cursor =
      { line := start.line
        span := (start.column, start.column)
        content := TextRunContent.Cursor cursor
        fg := (TextRun.color_to_rgb E config colors start).1
        bg := (TextRun.color_to_rgb E config colors start).2.1
        bg_alpha := (TextRun.color_to_rgb E config colors start).2.2
        flags := start.flags
        data := none }
    ∧ (TextRun.from_cursor_key E config colors start cursor).span.2 + 1
        - (TextRun.from_cursor_key E config colors start cursor).span.1
        = 1 :=
  ⟨rfl, by simp [TextRun.from_cursor_key]⟩

/-- C9: equality and the hash ignore the `data` shaped-output cache —
two runs differing only in `data` compare equal and feed identical
value sequences to any hasher; the hash input is computed from exactly
the four identity fields (width, content, bg_alpha bits, flags), so two
runs compare equal exactly when their hash inputs coincide. -/
theorem C9_data_ignored (r r2 : TextRun)
    (d1 d2 : Option (List (RenderableCell × Glyph))) :
    TextRun.beq { r with data := d1 } { r with data := d2 } = true
    ∧ TextRun.hashInput { r with data := d1 }
        = TextRun.hashInput { r with data := d2 }
    ∧ TextRun.hashInput r
        = (r.span.2 - r.span.1, r.content, r.bg_alpha.to_bits, r.flags)
    ∧ (TextRun.beq r r2 = true ↔
        TextRun.hashInput r = TextRun.hashInput r2) := by
  refine ⟨by simp [TextRun.beq], rfl, rfl, ?_⟩
  simp [TextRun.beq, TextRun.hashInput, Prod.ext_iff, and_assoc]

/-- C10: the accessors expose the run's own fields unchanged:
`start_point` is (line, span start), `end_point` is (line, span end),
and `start_cell` is a RenderableCell at (line, span start) carrying the
run's fg, bg, bg_alpha, and flags, whose character content is all
blanks.  All three are pure projections and leave the run untouched. -/
theorem C10_accessors (r : TextRun) :
    r.start_point = { line := r.line, col := r.span.1 }
    ∧ r.end_point = { line := r.line, col := r.span.2 }
    ∧ r.start_cell =
      { line := r.line
        column := r.span.1
        inner := RenderableCellContent.Chars
          (List.replicate (MAX_ZEROWIDTH_CHARS + 1) ' ')
        fg := r.fg
        bg := r.bg
        bg_alpha := r.bg_alpha
        flags := r.flags } :=
  ⟨rfl, rfl, rfl⟩

end TextRunModule
